import Mathlib

/-
Verification development for the lvlUSD ecosystem dashboard.

The repository is a Python dashboard that aggregates on-chain reads
(token supplies, Curve pool balances) and GraphQL API results (Zapper
portfolio, Morpho markets) into one printed report.  This file gives a
shallow embedding of the data model and the operations that the checked
properties are about, and proves or refutes each property.

Conventions of the embedding:
  * Python numbers produced by `int / int` or float arithmetic are
    modelled as exact rationals together with an explicit model `fl` of
    IEEE-754 binary64 rounding (round to nearest, ties to even), so that
    precision-loss questions are decidable.  `fl` models the normal
    range (binade exponents up to `FUEL`), which covers every quantity
    the dashboard handles; overflow and subnormals do not arise.
  * Code that can raise a Python exception is embedded as a function
    into `Except PyErr _`; `Except.error` means the exception propagates
    to the caller at that point.
  * Network traffic is embedded as an explicit `FetchAttempt` value (the
    outcome the transport would deliver), so adapters become pure
    functions of the traffic they would observe.
-/

/-- Round `n / d` to the nearest natural number, ties to even
(`d ≠ 0` is assumed at use sites). -/
def rneNat (n d : ℕ) : ℕ :=
  if 2 * (n % d) < d then n / d
  else if d < 2 * (n % d) then n / d + 1
  else if (n / d) % 2 = 0 then n / d else n / d + 1

/-- Largest `e` with `b * 2 ^ e ≤ a` (given enough fuel), i.e. the
binade exponent of `a / b` when `b ≤ a`. -/
def eUp (a : ℕ) : ℕ → ℕ → ℕ
  | _, 0 => 0
  | b, fuel + 1 => if 2 * b ≤ a then eUp a (2 * b) fuel + 1 else 0

/-- Smallest `k` with `b ≤ a * 2 ^ k` (given enough fuel); `-k` is the
binade exponent of `a / b` when `a < b`. -/
def eDown (b : ℕ) : ℕ → ℕ → ℕ
  | _, 0 => 0
  | a, fuel + 1 => if b ≤ a then 0 else eDown b (2 * a) fuel + 1

/-- Fuel bound for the binade search: covers binade exponents up to
±200, far beyond every quantity in the dashboard. -/
def FUEL : ℕ := 200

/-- The IEEE-754 binary64 value nearest to `a / b` for positive
naturals `a`, `b`: scale `a / b` into `[2^52, 2^53)`, round to the
nearest integer significand (ties to even), and scale back. -/
def flPos (a b : ℕ) : ℚ :=
  if b ≤ a then
    if eUp a b FUEL ≤ 52 then
      (rneNat (a * 2 ^ (52 - eUp a b FUEL)) b : ℚ) / 2 ^ (52 - eUp a b FUEL)
    else
      (rneNat a (b * 2 ^ (eUp a b FUEL - 52)) : ℚ) * 2 ^ (eUp a b FUEL - 52)
  else
    (rneNat (a * 2 ^ (52 + eDown b a FUEL)) b : ℚ) / 2 ^ (52 + eDown b a FUEL)

/-- Binary64 rounding of an exact rational: the double a Python float
operation would produce when its exact result is `q`. -/
def fl (q : ℚ) : ℚ :=
  if q = 0 then 0
  else if 0 < q then flPos q.num.natAbs q.den
  else -(flPos q.num.natAbs q.den)

/-- Python float division: the correctly rounded quotient.  (CPython's
`int / int` and `float / float` both round the exact quotient to the
nearest double.) -/
def fdiv (x y : ℚ) : ℚ := fl (x / y)

/-- Python float multiplication: the correctly rounded product. -/
def fmul (x y : ℚ) : ℚ := fl (x * y)

/-- Numerator and denominator of a quotient of coprime naturals. -/
theorem natDiv_num_den (a b : ℕ) (hb : b ≠ 0) (h : Nat.Coprime a b) :
    ((a : ℚ) / (b : ℚ)).num = (a : ℤ) ∧ ((a : ℚ) / (b : ℚ)).den = b := by
  have hmk : ((a : ℚ) / (b : ℚ)) = Rat.mk' (a : ℤ) b hb (by simpa using h) := by
    rw [Rat.mk'_eq_divInt, Rat.divInt_eq_div]
    norm_num
  rw [hmk]
  exact ⟨rfl, rfl⟩

/-- `fl` on a quotient of coprime positive naturals reduces to the
positive-case rounding. -/
theorem fl_natDiv (a b : ℕ) (ha : a ≠ 0) (hb : b ≠ 0) (h : Nat.Coprime a b) :
    fl ((a : ℚ) / (b : ℚ)) = flPos a b := by
  have ha' : (0 : ℚ) < (a : ℚ) := by exact_mod_cast Nat.pos_of_ne_zero ha
  have hb' : (0 : ℚ) < (b : ℚ) := by exact_mod_cast Nat.pos_of_ne_zero hb
  have hq : (0 : ℚ) < (a : ℚ) / (b : ℚ) := div_pos ha' hb'
  unfold fl
  rw [if_neg (ne_of_gt hq), if_pos hq, (natDiv_num_den a b hb h).1,
    (natDiv_num_den a b hb h).2]
  simp

/-- The binade search never overshoots: `b * 2 ^ eUp a b fuel ≤ a`
whenever `b ≤ a`, for any amount of fuel. -/
theorem eUp_le_self (a : ℕ) : ∀ fuel b : ℕ, b ≤ a → b * 2 ^ eUp a b fuel ≤ a := by
  intro fuel
  induction fuel with
  | zero =>
    intro b hba
    simpa [eUp] using hba
  | succ f ih =>
    intro b hba
    by_cases h : 2 * b ≤ a
    · have h2 := ih (2 * b) h
      have he : eUp a b (f + 1) = eUp a (2 * b) f + 1 := by
        simp [eUp, h]
      rw [he, pow_succ]
      calc b * (2 ^ eUp a (2 * b) f * 2) = 2 * b * 2 ^ eUp a (2 * b) f := by ring
        _ ≤ a := h2
    · have he : eUp a b (f + 1) = 0 := by simp [eUp, h]
      simpa [he] using hba

/-- Rounding an integer is exact. -/
theorem rneNat_one (n : ℕ) : rneNat n 1 = n := by
  simp [rneNat, Nat.mod_one, Nat.div_one]

/-- Naturals below `2 ^ 53` are exactly representable in binary64. -/
theorem flPos_int (m : ℕ) (h0 : 0 < m) (h : m < 2 ^ 53) : flPos m 1 = m := by
  have hle : eUp m 1 FUEL ≤ 52 := by
    have h1 : 1 * 2 ^ eUp m 1 FUEL ≤ m := eUp_le_self m FUEL 1 h0
    have h2 : 2 ^ eUp m 1 FUEL < 2 ^ 53 := by omega
    have h3 := (Nat.pow_lt_pow_iff_right (by norm_num : 1 < 2)).1 h2
    omega
  unfold flPos
  rw [if_pos (show 1 ≤ m from h0), if_pos hle, rneNat_one]
  have hne : ((2 : ℚ) ^ (52 - eUp m 1 FUEL)) ≠ 0 := by positivity
  push_cast
  rw [mul_div_assoc, div_self hne, mul_one]

/-- `fl` is the identity on naturals below `2 ^ 53`. -/
theorem fl_natCast (m : ℕ) (h0 : 0 < m) (h : m < 2 ^ 53) : fl (m : ℚ) = m := by
  have hd := fl_natDiv m 1 h0.ne' one_ne_zero (Nat.coprime_one_right m)
  rw [flPos_int m h0 h] at hd
  simpa using hd

/-- Python exceptions that the embedded dashboard code can raise.  An
`Except.error` carrying one of these models the exception propagating
out of the function at that point. -/
inductive PyErr
  | requestTimeout
  | requestConnError
  | httpStatusError (status : ℕ)
  | graphqlErrors (es : List String)
  | keyError
  | zeroDivisionError
  | wrappedException (msg : String)
deriving DecidableEq

/-
On-chain supply section
(src/get_lvlUSD_slvlUSD_supply.py lines 40-44, src/get_aUSDC_info.py
lines 40-44, src/main.py get_supply_info lines 71-73).
-/

/-- Scaling of an on-chain integer read: `value / 10 ** d` in Python,
i.e. the binary64 rounding of the exact quotient
(`lvlUSD_total_supply = ... .call() / 10**18` and the analogous lines
with `10**6` in get_aUSDC_info.py). -/
def onChainScale (v d : ℕ) : ℚ := fdiv (v : ℚ) ((10 ^ d : ℕ) : ℚ)

/-- The slvlUSD/lvlUSD percentage of src/main.py line 73 and
src/get_lvlUSD_slvlUSD_supply.py line 44:
`(slvlUSD_supply / lvlUSD_supply) * 100` on the already-scaled float
supplies.  Python raises `ZeroDivisionError` when the denominator is
the float zero; otherwise both operations are float arithmetic. -/
def supplyPercentage (slvl lvl : ℚ) : Except PyErr ℚ :=
  if lvl = 0 then Except.error PyErr.zeroDivisionError
  else Except.ok (fmul (fdiv slvl lvl) 100)

/-
GraphQL adapters
(src/stakehouse_situation.py MorphoAPIClient._execute_query lines 12-30,
src/get_lvlUSD_portfolio_zapper.py ZapperAPI.fetch_defi_positions lines
206-227).
-/

/-- A parsed GraphQL HTTP response body together with its status code.
`errorsField = none` means the body has no "errors" key;
`dataField = none` means no "data" key, `some none` a JSON-null "data",
and `some (some p)` a non-null payload (the payload's structure is
irrelevant to the control flow and is stood in for by a number). -/
structure GqlResponse where
  status : ℕ
  errorsField : Option (List String)
  dataField : Option (Option ℕ)
deriving DecidableEq

/-- What the transport delivers for one HTTP POST: a timeout, a
connection failure, or a response. -/
inductive FetchAttempt
  | timeout
  | connError
  | response (r : GqlResponse)
deriving DecidableEq

/-- MorphoAPIClient._execute_query (src/stakehouse_situation.py lines
12-30, duplicated verbatim in src/lvlusd_pendle_situation.py): POST the
query; `requests` exceptions are not caught and propagate;
`raise_for_status()` raises on a 4xx/5xx status; a body with an
"errors" key raises `Exception("GraphQL errors: ...")`; otherwise
`result["data"]` is returned (`KeyError` if the key is missing). -/
def morphoExecuteQuery : FetchAttempt → Except PyErr (Option ℕ)
  | FetchAttempt.timeout => Except.error PyErr.requestTimeout
  | FetchAttempt.connError => Except.error PyErr.requestConnError
  | FetchAttempt.response r =>
    if 400 ≤ r.status then Except.error (PyErr.httpStatusError r.status)
    else
      match r.errorsField with
      | some es => Except.error (PyErr.graphqlErrors es)
      | none =>
        match r.dataField with
        | none => Except.error PyErr.keyError
        | some d => Except.ok d

/-- ZapperAPI.fetch_defi_positions (src/get_lvlUSD_portfolio_zapper.py
lines 206-227): POST with a 30s timeout; a non-200 status raises
`Exception(error_msg)`; a body with an "errors" key raises
`Exception("GraphQL Errors: ...")`; `requests.RequestException`
(timeouts, connection errors) is caught and re-raised as
`Exception("Request failed: ...")`; otherwise `data['data']` is
returned. -/
def zapperFetchDefiPositions : FetchAttempt → Except PyErr (Option ℕ)
  | FetchAttempt.timeout => Except.error (PyErr.wrappedException "Request failed")
  | FetchAttempt.connError => Except.error (PyErr.wrappedException "Request failed")
  | FetchAttempt.response r =>
    if r.status ≠ 200 then Except.error (PyErr.wrappedException "HTTP error")
    else
      match r.errorsField with
      | some _ => Except.error (PyErr.wrappedException "GraphQL Errors")
      | none =>
        match r.dataField with
        | none => Except.error PyErr.keyError
        | some d => Except.ok d

/-- One invocation of `_execute_query` against a network oracle: the
list gives the outcome each successive POST attempt would observe, and
the code performs exactly one POST, so only the head is consumed.  An
empty oracle (no network at all) behaves as a connection error. -/
def morphoFetchRun : List FetchAttempt → Except PyErr (Option ℕ)
  | [] => Except.error PyErr.requestConnError
  | a :: _ => morphoExecuteQuery a

/-- One invocation of `fetch_defi_positions` against the same network
oracle; again exactly one POST is made. -/
def zapperFetchRun : List FetchAttempt → Except PyErr (Option ℕ)
  | [] => Except.error (PyErr.wrappedException "Request failed")
  | a :: _ => zapperFetchDefiPositions a

/-
Top-level report generation (src/main.py main, lines 148-185).
-/

/-- The seven data sections main() fetches, in program order. -/
inductive SectionId
  | supplyInfo
  | collateralComposition
  | aUSDCSituation
  | stakehouse
  | curvePools
  | lvlusdPendle
  | slvlusdPendle
deriving DecidableEq

/-- How one section's fetch ends in a given run: normal data, a failure
returned as a value (e.g. get_collateral_composition returning None),
or an uncaught exception. -/
inductive SectionOutcome
  | ok
  | failedValue
  | raised
deriving DecidableEq

/-- The order in which main() runs the section getters (src/main.py
lines 158-176). -/
def dashboardSections : List SectionId :=
  [SectionId.supplyInfo, SectionId.collateralComposition,
   SectionId.aUSDCSituation, SectionId.stakehouse, SectionId.curvePools,
   SectionId.lvlusdPendle, SectionId.slvlusdPendle]

/-- Run the sections of main()'s single try block in order: each
section's fetch is invoked, and the first section that raises aborts
the block (the one `except` at line 179 catches it and main proceeds to
the footer), so no later section is fetched.  Returns the sections
whose fetch was invoked. -/
def runSections (outcome : SectionId → SectionOutcome) :
    List SectionId → List SectionId
  | [] => []
  | s :: rest =>
    s :: (if outcome s = SectionOutcome.raised then [] else runSections outcome rest)

/-- The sections fetched in one run of main() with the given
per-section outcomes. -/
def fetchedSections (outcome : SectionId → SectionOutcome) : List SectionId :=
  runSections outcome dashboardSections

/-- A realizable run in which the supply section raises (for instance
the unguarded division of line 73 raising ZeroDivisionError) and every
other section would have succeeded. -/
def supplyRaisesRun : SectionId → SectionOutcome := fun s =>
  if s = SectionId.supplyInfo then SectionOutcome.raised else SectionOutcome.ok

/-- A run in which every section fails by returning a failure value
(no section raises). -/
def allFailedValueRun : SectionId → SectionOutcome := fun _ =>
  SectionOutcome.failedValue

/-
Zapper portfolio positions
(src/get_lvlUSD_portfolio_zapper.py DeFiPosition, get_claimable_positions
lines 442-444, print_defi_report lines 389-417, print_claimable_report
lines 446-461).
-/

/-- One entry of a position's `underlying_tokens` list (only the fields
the reports read). -/
structure TokenEntry where
  metaType : String
  symbol : String
  balance : ℚ
  balanceUsd : ℚ
deriving DecidableEq

/-- The DeFiPosition dataclass (src/get_lvlUSD_portfolio_zapper.py
lines 32-46).  `balance_usd` is a Python float, modelled as its exact
rational value; the float literal `0.01` of the filter is modelled as
`1/100` (the distinction is irrelevant to the properties checked
here). -/
structure DeFiPosition where
  app_name : String
  app_slug : String
  network : String
  chain_id : ℤ
  position_type : String
  balance_usd : ℚ
  position_address : String
  symbol : String
  balance : ℚ
  underlying_tokens : List TokenEntry
  display_label : String
  meta_type : String
deriving DecidableEq

/-- get_claimable_positions (src/get_lvlUSD_portfolio_zapper.py line
444): the list comprehension
`[pos for pos in defi_positions if pos.meta_type == 'CLAIMABLE' and pos.balance_usd > 0.01]`. -/
def get_claimable_positions (l : List DeFiPosition) : List DeFiPosition :=
  l.filter fun p => decide (p.meta_type = "CLAIMABLE" ∧ (1 : ℚ) / 100 < p.balance_usd)

/-- The comparison `list.sort(key=lambda x: x.balance_usd, reverse=True)`
sorts by: `a` may precede `b` iff `b`'s balance does not exceed `a`'s. -/
def posDescLe (a b : DeFiPosition) : Bool :=
  decide (b.balance_usd ≤ a.balance_usd)

/-- Python's stable in-place list sort, descending by balance_usd. -/
def sortByBalanceUsdDesc (l : List DeFiPosition) : List DeFiPosition :=
  l.mergeSort posDescLe

/-- The caller's position list after print_defi_report returns
(src/get_lvlUSD_portfolio_zapper.py line 415 sorts the argument list in
place). -/
def printDefiReportListState (l : List DeFiPosition) : List DeFiPosition :=
  sortByBalanceUsdDesc l

/-- The caller's list after print_claimable_report returns: the
function returns early on an empty list (line 448-450) and otherwise
sorts the argument list in place (line 460). -/
def printClaimableReportListState (l : List DeFiPosition) : List DeFiPosition :=
  if l.isEmpty then l else sortByBalanceUsdDesc l

/-- A claimable position used as a concrete instance. -/
def claimPos : DeFiPosition :=
  ⟨"Aura", "aura", "Ethereum", 1, "contract-position", 5, "0xabc", "", 0, [],
   "", "CLAIMABLE"⟩

/-
Morpho market report lines
(src/stakehouse_situation.py get_stakehouse_situation lines 117-134 and
src/lvlusd_pendle_situation.py get_lvlusd_pendle_situation lines
113-130; the two blocks are identical).
-/

/-- One entry of a market state's `rewards` array. -/
structure RewardEntry where
  assetSymbol : String
  supplyApr : ℚ
  borrowApr : ℚ

/-- The `state` object of a Morpho `marketByUniqueKey` result (the
fields the report reads).  USD amounts and fractions arrive as JSON
decimals; the code's `float(...)` parse yields doubles, modelled as
their exact rational values. -/
structure MorphoMarketState where
  supplyAssetsUsd : ℚ
  borrowAssetsUsd : ℚ
  liquidityAssetsUsd : ℚ
  supplyApy : ℚ
  borrowApy : ℚ
  utilization : ℚ
  rewards : List RewardEntry

/-- A decoded Morpho market. -/
structure MorphoMarket where
  collateralSymbol : String
  loanSymbol : String
  state : MorphoMarketState

/-- The values one market's report block prints (before the `:.2f`
display formatting). -/
structure MarketReportLines where
  collateral : String
  loanAsset : String
  totalSupplyUsd : ℚ
  totalBorrowUsd : ℚ
  availableLiquidityUsd : ℚ
  supplyApyPct : ℚ
  borrowApyPct : ℚ
  utilizationPct : ℚ
  rewardSupplyAprPct : List (String × ℚ)

/-- The report block of get_stakehouse_situation (lines 121-134): USD
fields pass through; APY, utilization and reward-APR fractions are
multiplied by 100 (float multiplication). -/
def stakehouseMarketReport (m : MorphoMarket) : MarketReportLines :=
  ⟨m.collateralSymbol, m.loanSymbol,
   m.state.supplyAssetsUsd, m.state.borrowAssetsUsd, m.state.liquidityAssetsUsd,
   fmul m.state.supplyApy 100, fmul m.state.borrowApy 100,
   fmul m.state.utilization 100,
   m.state.rewards.map fun r => (r.assetSymbol, fmul r.supplyApr 100)⟩

/-- The report block of get_lvlusd_pendle_situation (lines 117-130),
textually identical to the stakehouse one. -/
def pendleMarketReport (m : MorphoMarket) : MarketReportLines :=
  ⟨m.collateralSymbol, m.loanSymbol,
   m.state.supplyAssetsUsd, m.state.borrowAssetsUsd, m.state.liquidityAssetsUsd,
   fmul m.state.supplyApy 100, fmul m.state.borrowApy 100,
   fmul m.state.utilization 100,
   m.state.rewards.map fun r => (r.assetSymbol, fmul r.supplyApr 100)⟩

/-
Claim theorems.
-/

/-- C1 (counterexample): the claim that a failing section never
prevents the others is false at a concrete run.  In the run where the
supply section's fetch raises (a realizable outcome: line 73 of
src/main.py raises ZeroDivisionError on a zero lvlUSD supply), main()'s
single try block (lines 158-176) is aborted by the one except at line
179, so only the supply section is ever fetched: the collateral,
aUSDC, stakehouse, Curve and Pendle sections are not fetched in that
run. -/
theorem sectionFailureContagiousCounterexample :
    supplyRaisesRun SectionId.supplyInfo = SectionOutcome.raised ∧
    fetchedSections supplyRaisesRun = [SectionId.supplyInfo] := by
  constructor
  · rfl
  · decide

/-- Helper for C1: when no section raises, main()'s try block runs all
sections. -/
theorem runSections_of_no_raise (outcome : SectionId → SectionOutcome)
    (h : ∀ s, outcome s ≠ SectionOutcome.raised) :
    ∀ l : List SectionId, runSections outcome l = l := by
  intro l
  induction l with
  | nil => rfl
  | cons s rest ih => simp [runSections, h s, ih]

/-- C1 (amended): failures returned as values are never contagious —
in every run of main() in which no section's fetch raises an uncaught
exception, every section is fetched — but a section that raises aborts
all later sections (see the counterexample). -/
theorem sectionValueFailuresNotContagious (outcome : SectionId → SectionOutcome)
    (h : ∀ s, outcome s ≠ SectionOutcome.raised) :
    ∀ s : SectionId, s ∈ fetchedSections outcome := by
  intro s
  unfold fetchedSections
  rw [runSections_of_no_raise outcome h]
  cases s <;> decide

/-- C1 (witness): in the run where every section fails by returning a
failure value, the collateral section is still fetched. -/
theorem sectionValueFailuresNotContagiousWitness :
    SectionId.collateralComposition ∈ fetchedSections allFailedValueRun :=
  sectionValueFailuresNotContagious allFailedValueRun
    (fun s => by simp [allFailedValueRun]) SectionId.collateralComposition

/-- C2 (counterexample): the claim that a zero lvlUSD supply does not
lead to a division by zero is false: with slvlUSD supply 250000 and
lvlUSD supply 0, the percentage computation of src/main.py line 73 /
src/get_lvlUSD_slvlUSD_supply.py line 44 raises ZeroDivisionError
instead of marking the metric absent. -/
theorem supplyPercentageZeroCounterexample :
    supplyPercentage 250000 0 = Except.error PyErr.zeroDivisionError := by
  simp [supplyPercentage]

/-- C2 (amended): the division is unguarded — the percentage
computation raises ZeroDivisionError exactly when the lvlUSD total
supply is zero (the exception propagates; there is no absent-metric
marking), and succeeds with the float value of
`slvl / lvl * 100` whenever the denominator is non-zero. -/
theorem supplyPercentageRaisesIffZero (slvl lvl : ℚ) :
    (supplyPercentage slvl lvl = Except.error PyErr.zeroDivisionError ↔ lvl = 0) ∧
    ((∃ v, supplyPercentage slvl lvl = Except.ok v) ↔ lvl ≠ 0) := by
  by_cases h : lvl = 0 <;> simp [supplyPercentage, h]

/-- C3 (counterexample): the claim that adapter-level transport errors
never escape as exceptions is false at a concrete input: on a timeout,
MorphoAPIClient._execute_query lets the requests exception propagate to
its caller, and ZapperAPI.fetch_defi_positions re-raises it as a
generic Exception — neither returns a Failed observation value (their
return types have no failure variant at all). -/
theorem adapterTimeoutRaisesCounterexample :
    morphoExecuteQuery FetchAttempt.timeout = Except.error PyErr.requestTimeout ∧
    zapperFetchDefiPositions FetchAttempt.timeout
      = Except.error (PyErr.wrappedException "Request failed") :=
  ⟨rfl, rfl⟩

/-- C3 (amended): on a timeout or transport error both adapters raise
an exception across the adapter boundary — Morpho propagates the
requests exception unchanged, Zapper wraps it in a generic
`Exception("Request failed: ...")` — and the callers
(get_collateral_composition, the per-market loops) are the ones that
catch it. -/
theorem adapterTransportErrorsRaise (a : FetchAttempt)
    (h : a = FetchAttempt.timeout ∨ a = FetchAttempt.connError) :
    (∃ e, morphoExecuteQuery a = Except.error e) ∧
    (∃ msg, zapperFetchDefiPositions a = Except.error (PyErr.wrappedException msg)) := by
  rcases h with h | h <;> subst h
  · exact ⟨⟨PyErr.requestTimeout, rfl⟩, ⟨"Request failed", rfl⟩⟩
  · exact ⟨⟨PyErr.requestConnError, rfl⟩, ⟨"Request failed", rfl⟩⟩

/-- C3 (witness): the amended statement instantiated at a timeout. -/
theorem adapterTransportErrorsRaiseWitness :
    (∃ e, morphoExecuteQuery FetchAttempt.timeout = Except.error e) ∧
    (∃ msg, zapperFetchDefiPositions FetchAttempt.timeout
      = Except.error (PyErr.wrappedException msg)) :=
  adapterTransportErrorsRaise FetchAttempt.timeout (Or.inl rfl)

/-- C4: a 200 response whose body carries a non-empty GraphQL `errors`
array is treated as a failure by both adapters even when the `data`
field is non-null — the Morpho client raises on the errors key before
ever touching `data`, and the Zapper client likewise — so partial
GraphQL data never yields an Ok result. -/
theorem graphqlErrorsNeverOk (r : GqlResponse) (es : List String) (d : ℕ)
    (hs : r.status = 200) (he : r.errorsField = some es) (_hne : es ≠ [])
    (_hd : r.dataField = some (some d)) :
    morphoExecuteQuery (FetchAttempt.response r)
      = Except.error (PyErr.graphqlErrors es) ∧
    zapperFetchDefiPositions (FetchAttempt.response r)
      = Except.error (PyErr.wrappedException "GraphQL Errors") := by
  constructor
  · simp [morphoExecuteQuery, hs, he]
  · simp [zapperFetchDefiPositions, hs, he]

/-- C4 (witness): a concrete 200 response with one GraphQL error and a
non-null data payload fails on both adapters. -/
theorem graphqlErrorsNeverOkWitness :
    morphoExecuteQuery (FetchAttempt.response ⟨200, some ["rate limited"], some (some 5)⟩)
      = Except.error (PyErr.graphqlErrors ["rate limited"]) ∧
    zapperFetchDefiPositions (FetchAttempt.response ⟨200, some ["rate limited"], some (some 5)⟩)
      = Except.error (PyErr.wrappedException "GraphQL Errors") :=
  graphqlErrorsNeverOk ⟨200, some ["rate limited"], some (some 5)⟩
    ["rate limited"] 5 rfl rfl (by simp) rfl

/-- C5 (counterexample): the claimed retry behaviour is false at a
concrete run: against a network that times out on the first attempt and
would deliver a successful 200 response on the second, both fetches
fail — the timed-out source does not appear as Ok — even though a
single retry would have succeeded (as the second and fourth conjuncts
show). -/
theorem noRetryCounterexample :
    morphoFetchRun [FetchAttempt.timeout, FetchAttempt.response ⟨200, none, some (some 7)⟩]
      = Except.error PyErr.requestTimeout ∧
    morphoExecuteQuery (FetchAttempt.response ⟨200, none, some (some 7)⟩)
      = Except.ok (some 7) ∧
    zapperFetchRun [FetchAttempt.timeout, FetchAttempt.response ⟨200, none, some (some 7)⟩]
      = Except.error (PyErr.wrappedException "Request failed") ∧
    zapperFetchDefiPositions (FetchAttempt.response ⟨200, none, some (some 7)⟩)
      = Except.ok (some 7) := by
  refine ⟨rfl, ?_, rfl, ?_⟩
  · simp [morphoExecuteQuery]
  · simp [zapperFetchDefiPositions]

/-- C5 (amended): no retry policy exists — each fetch performs exactly
one POST, so its result is that of the first attempt alone and is
independent of whatever later attempts would have returned; in
particular a first-attempt timeout always surfaces as a raised
exception, whatever the rest of the oracle holds. -/
theorem singleAttemptNoRetry (a : FetchAttempt) (rest : List FetchAttempt) :
    morphoFetchRun (a :: rest) = morphoExecuteQuery a ∧
    zapperFetchRun (a :: rest) = zapperFetchDefiPositions a ∧
    morphoFetchRun (FetchAttempt.timeout :: rest) = Except.error PyErr.requestTimeout ∧
    zapperFetchRun (FetchAttempt.timeout :: rest)
      = Except.error (PyErr.wrappedException "Request failed") :=
  ⟨rfl, rfl, rfl, rfl⟩

/-- C6 (counterexample): exact round-tripping of the decimal scaling is
false: the code stores `v / 10**18` as a binary64 float, and for
`v = 10^18 + 1` the quotient rounds to exactly 1.0, so re-scaling by
`10^18` yields `10^18`, not `v` — the `+ 1` is lost. -/
theorem onChainScaleRoundTripCounterexample :
    onChainScale (10 ^ 18 + 1) 18 = 1 ∧
    onChainScale (10 ^ 18 + 1) 18 * ((10 ^ 18 : ℕ) : ℚ) ≠ ((10 ^ 18 + 1 : ℕ) : ℚ) := by
  have h1 : onChainScale (10 ^ 18 + 1) 18 = 1 := by
    unfold onChainScale fdiv
    rw [fl_natDiv (10 ^ 18 + 1) (10 ^ 18) (by norm_num) (by norm_num) (by norm_num)]
    unfold flPos
    rw [if_pos (by norm_num : (10 : ℕ) ^ 18 ≤ 10 ^ 18 + 1)]
    rw [show eUp (10 ^ 18 + 1) (10 ^ 18) FUEL = 0 from by decide]
    rw [if_pos (by norm_num : (0 : ℕ) ≤ 52)]
    rw [show (52 - 0 : ℕ) = 52 from rfl]
    rw [show rneNat ((10 ^ 18 + 1) * 2 ^ 52) (10 ^ 18) = 2 ^ 52 from by decide]
    norm_num
  refine ⟨h1, ?_⟩
  rw [h1]
  push_cast
  norm_num

/-- C6 (amended): the normalized value is the binary64 rounding of
`v / 10^d`, and the round trip is exact precisely on quotients that
binary64 represents: for every `v` that is `10^d` times an integer
below `2^53`, re-scaling the stored value by `10^d` recovers `v`
exactly; for other values (see the counterexample) precision is
lost. -/
theorem onChainScaleRoundTripExactlyRepresentable (m d : ℕ) (h : m < 2 ^ 53) :
    onChainScale (m * 10 ^ d) d * ((10 ^ d : ℕ) : ℚ) = ((m * 10 ^ d : ℕ) : ℚ) := by
  rcases Nat.eq_zero_or_pos m with hm | hm
  · subst hm
    simp [onChainScale, fdiv, fl]
  · have hpow : ((10 ^ d : ℕ) : ℚ) ≠ 0 := by positivity
    have hcast : ((m * 10 ^ d : ℕ) : ℚ) / ((10 ^ d : ℕ) : ℚ) = (m : ℚ) := by
      push_cast
      field_simp
    unfold onChainScale fdiv
    rw [hcast, fl_natCast m hm h]
    push_cast
    ring

/-- C6 (witness): the amended round trip at `m = 3`, `d = 1`: the
on-chain value 30 with one declared decimal normalizes to 3.0 and
re-scales to 30 exactly. -/
theorem onChainScaleRoundTripWitness :
    onChainScale (3 * 10 ^ 1) 1 * ((10 ^ 1 : ℕ) : ℚ) = ((3 * 10 ^ 1 : ℕ) : ℚ) :=
  onChainScaleRoundTripExactlyRepresentable 3 1 (by norm_num)

/-- C7: the percentage metric of get_supply_info is
`slvl / lvl * 100` in float arithmetic, and at the claimed concrete
supplies — lvlUSD 1,000,000 and slvlUSD 250,000, both exactly
representable — every intermediate float is exact, so the computed
percentage is exactly 25. -/
theorem supplyPercentageConcrete :
    supplyPercentage 250000 1000000 = Except.ok 25 := by
  unfold supplyPercentage
  rw [if_neg (by norm_num : (1000000 : ℚ) ≠ 0)]
  have hdiv : fdiv (250000 : ℚ) 1000000 = 1 / 4 := by
    unfold fdiv
    rw [show (250000 : ℚ) / 1000000 = ((1 : ℕ) : ℚ) / ((4 : ℕ) : ℚ) from by norm_num]
    rw [fl_natDiv 1 4 one_ne_zero (by norm_num) (by norm_num)]
    unfold flPos
    rw [if_neg (by norm_num : ¬ (4 : ℕ) ≤ 1)]
    rw [show eDown 4 1 FUEL = 2 from by decide]
    rw [show rneNat (1 * 2 ^ (52 + 2)) 4 = 2 ^ 52 from by decide]
    norm_num
  rw [hdiv]
  have hmul : fmul ((1 : ℚ) / 4) 100 = 25 := by
    unfold fmul
    rw [show (1 : ℚ) / 4 * 100 = ((25 : ℕ) : ℚ) from by norm_num]
    rw [fl_natCast 25 (by norm_num) (by norm_num)]
    norm_num
  rw [hmul]

/-- C8: in both market-report blocks (stakehouse and Pendle, identical
code) every reported APY/utilization percentage is exactly the float
product of the provider's fraction with 100 — supply APY, borrow APY,
utilization, and each reward's supply APR — and the USD fields pass
through untouched; the two blocks agree on every input. -/
theorem marketReportPercentages (m : MorphoMarket) :
    (stakehouseMarketReport m).supplyApyPct = fl (m.state.supplyApy * 100) ∧
    (stakehouseMarketReport m).borrowApyPct = fl (m.state.borrowApy * 100) ∧
    (stakehouseMarketReport m).utilizationPct = fl (m.state.utilization * 100) ∧
    (stakehouseMarketReport m).rewardSupplyAprPct
      = m.state.rewards.map (fun r => (r.assetSymbol, fl (r.supplyApr * 100))) ∧
    (stakehouseMarketReport m).totalSupplyUsd = m.state.supplyAssetsUsd ∧
    (stakehouseMarketReport m).totalBorrowUsd = m.state.borrowAssetsUsd ∧
    (stakehouseMarketReport m).availableLiquidityUsd = m.state.liquidityAssetsUsd ∧
    pendleMarketReport m = stakehouseMarketReport m :=
  ⟨rfl, rfl, rfl, rfl, rfl, rfl, rfl, rfl⟩

/-- C9: get_claimable_positions is exactly the order-preserving,
non-mutating filter keeping the positions with meta_type 'CLAIMABLE'
and balance_usd strictly above 0.01: the result is a sublist of the
input (same records, original relative order), every kept position
satisfies the predicate, and every input position satisfying it is
kept. -/
theorem claimablePositionsFilter (l : List DeFiPosition) :
    List.Sublist (get_claimable_positions l) l ∧
    (∀ p ∈ get_claimable_positions l,
      p.meta_type = "CLAIMABLE" ∧ (1 : ℚ) / 100 < p.balance_usd) ∧
    (∀ p ∈ l, p.meta_type = "CLAIMABLE" → (1 : ℚ) / 100 < p.balance_usd →
      p ∈ get_claimable_positions l) := by
  refine ⟨List.filter_sublist l, ?_, ?_⟩
  · intro p hp
    have h := List.mem_filter.mp hp
    simpa using h.2
  · intro p hp h1 h2
    exact List.mem_filter.mpr ⟨hp, decide_eq_true ⟨h1, h2⟩⟩

/-- C9 (witness): a concrete claimable position worth five dollars is
kept by the filter. -/
theorem claimablePositionsFilterWitness :
    claimPos ∈ get_claimable_positions [claimPos] :=
  (claimablePositionsFilter [claimPos]).2.2 claimPos (List.mem_singleton.mpr rfl)
    rfl (by norm_num [claimPos])

/-- Helper for C10: the descending comparison is transitive. -/
theorem posDescLe_trans (a b c : DeFiPosition)
    (hab : posDescLe a b = true) (hbc : posDescLe b c = true) :
    posDescLe a c = true := by
  simp only [posDescLe, decide_eq_true_eq] at hab hbc ⊢
  exact le_trans hbc hab

/-- Helper for C10: the descending comparison is total. -/
theorem posDescLe_total (a b : DeFiPosition) :
    (posDescLe a b || posDescLe b a) = true := by
  simp only [posDescLe, Bool.or_eq_true, decide_eq_true_eq]
  exact le_total _ _

/-- Helper for C10: the modelled in-place sort yields a permutation
sorted into descending balance_usd order. -/
theorem sortByBalanceUsdDesc_spec (l : List DeFiPosition) :
    (sortByBalanceUsdDesc l).Perm l ∧
    List.Pairwise (fun a b => b.balance_usd ≤ a.balance_usd) (sortByBalanceUsdDesc l) := by
  constructor
  · exact List.mergeSort_perm l posDescLe
  · have h := List.sorted_mergeSort posDescLe_trans posDescLe_total l
    exact List.Pairwise.imp (fun hab => by simpa [posDescLe] using hab) h

/-- C10: both report printers leave the caller's list sorted in place
into descending balance_usd order: after either call the caller's list
is a permutation of the original list (hence made of the very same
position records, no field altered), and it is pairwise descending in
balance_usd.  print_claimable_report returns early on an empty list,
which is vacuously sorted. -/
theorem printReportsSortInPlace (l : List DeFiPosition) :
    (printDefiReportListState l).Perm l ∧
    List.Pairwise (fun a b => b.balance_usd ≤ a.balance_usd)
      (printDefiReportListState l) ∧
    (printClaimableReportListState l).Perm l ∧
    List.Pairwise (fun a b => b.balance_usd ≤ a.balance_usd)
      (printClaimableReportListState l) := by
  refine ⟨(sortByBalanceUsdDesc_spec l).1, (sortByBalanceUsdDesc_spec l).2, ?_, ?_⟩
  · unfold printClaimableReportListState
    split
    · exact List.Perm.refl l
    · exact (sortByBalanceUsdDesc_spec l).1
  · unfold printClaimableReportListState
    split
    · rename_i hemp
      rw [List.isEmpty_iff.mp hemp]
      exact List.Pairwise.nil
    · exact (sortByBalanceUsdDesc_spec l).2
